import Mathlib

/-!
Verification of the low-stock replenishment workflow of the CRM backend.

The development shallowly embeds the replenishment code:
- `crm/schema.py`: the `UpdateLowStockProducts` GraphQL mutation;
- `crm/cron.py`: `update_low_stock`, `_update_via_graphql`,
  `_update_via_database` and `_write_log`;
- `crm/tasks.py`: `_log_message` (the report-job log sink).

The inventory store is a list of products in its natural iteration order;
persistence effects are modelled by explicit state passing. Exceptions are
modelled by `Option`-valued failure flags threaded through the code paths
that contain `try/except` blocks in the source.
-/

set_option maxRecDepth 10000

namespace Crm

/-- Modelled from the spec: the product record of `crm/models.py`, which is
not part of the available sources. Per the data model section it carries an
opaque store-assigned identifier, a name, a positive decimal price and a
non-negative integer stock. Only `stock`, `id` and `name` are touched by the
replenishment code. -/
structure Product where
  id : Nat
  name : String
  price : Rat
  stock : Nat
deriving Repr, DecidableEq

/-- The inventory store: products in the natural iteration order of the
underlying record store. -/
abbrev Store := List Product

/-- Embedding of the Django queryset `Product.objects.filter(stock__lt=threshold)`:
the products whose stock is strictly below the threshold, in store order.
The source instantiates the threshold at the literal `10`. -/
def selectCandidates (threshold : Nat) (ps : List Product) : List Product :=
  ps.filter (fun p => p.stock < threshold)

/-- The replenishment amount: the source increments stock by the literal `10`
(`product.stock += 10` in both `crm/schema.py` and `crm/cron.py`). -/
def restock_amount : Nat := 10

/-- Embedding of `product.stock += 10`: the restocked product. -/
def applyRestock (p : Product) : Product :=
  { p with stock := p.stock + restock_amount }

/-- Embedding of `product.save()` on the store state: the row with the same
identifier is replaced by the updated product. -/
def saveProduct (s : Store) (p : Product) : Store :=
  s.map (fun q => if q.id = p.id then p else q)

/-- The low-stock queryset as the source writes it: threshold literal `10`. -/
def lowStockProducts (s : Store) : List Product :=
  selectCandidates 10 s

/-- Result of the restocking loop shared by `UpdateLowStockProducts.mutate`
and `_update_via_database`: the store after the saves that happened, the
list of (fetched product, saved product) pairs processed so far, and the
message of the exception that aborted the loop, if any. -/
structure LoopResult where
  store : Store
  processed : List (Product × Product)
  err : Option String
deriving Repr, DecidableEq

/-- Embedding of the `for product in low_stock_products:` loop of both the
mutation and the database fallback: each candidate in turn has its stock
incremented and is saved; a save failure raises, aborting the loop with the
exception message and leaving the earlier saves in place. `f` gives, per
product identifier, the exception message `save()` raises there, if any. -/
def restockLoop (f : Nat → Option String) : List Product → Store → LoopResult
  | [], s => ⟨s, [], none⟩
  | p :: rest, s =>
    match f p.id with
    | some e => ⟨s, [], some e⟩
    | none =>
      let r := restockLoop f rest (saveProduct s (applyRestock p))
      ⟨r.store, (p, applyRestock p) :: r.processed, r.err⟩

/-- The store after restocking and saving every product of a list in order. -/
def applyRestockAll (l : List Product) (s : Store) : Store :=
  l.foldl (fun st q => saveProduct st (applyRestock q)) s

/-- The result value of the `UpdateLowStockProducts` mutation:
`updated_products`, `success_message` and `errors` fields. -/
structure MutationResult where
  updated_products : List Product
  success_message : Option String
  errors : Option (List String)
deriving Repr, DecidableEq

/-- Embedding of `UpdateLowStockProducts.mutate` from `crm/schema.py`: query
the products with `stock < 10`; if none, return the empty success result;
otherwise run the restocking loop. Any exception is caught and turned into a
result carrying the exception message in `errors` with an empty
`updated_products` list and a null `success_message`. -/
def UpdateLowStockProducts.mutate (f : Nat → Option String) (s : Store) :
    Store × MutationResult :=
  let low := lowStockProducts s
  if low.isEmpty then
    (s, ⟨[], some "No low-stock products found.", none⟩)
  else
    let r := restockLoop f low s
    match r.err with
    | some e => (r.store, ⟨[], none, some [e]⟩)
    | none =>
      (r.store,
       ⟨r.processed.map Prod.snd,
        some ("Successfully updated " ++ toString r.processed.length ++
          " low-stock products."),
        none⟩)

/-- A product as it appears in the remote GraphQL response payload. -/
structure RemoteProduct where
  id : Nat
  name : String
  stock : Nat
deriving Repr, DecidableEq

/-- The `updateLowStockProducts` payload of a well-formed remote response:
`updatedProducts`, `successMessage` and `errors` (a null error list is
modelled as the empty list, matching Python truthiness). -/
structure MutationPayload where
  updatedProducts : List RemoteProduct
  successMessage : String
  errors : List String
deriving Repr, DecidableEq

/-- The parsed JSON body of a remote response: either a top-level GraphQL
error list (the `'errors' in data` branch, rendered to text) or the mutation
payload under `data.updateLowStockProducts`. -/
inductive ResponseBody where
  | topErrors (rendered : String)
  | payload (p : MutationPayload)
deriving Repr, DecidableEq

/-- Outcome of the `requests.post` call in `_update_via_graphql`: a raised
`requests.exceptions.RequestException`, any other exception, or an HTTP
response with a status code, a body text and a parsed JSON body. -/
inductive RemoteResponse where
  | requestException (msg : String)
  | otherException (msg : String)
  | http (status : Nat) (text : String) (body : ResponseBody)
deriving Repr, DecidableEq

/-- Rendering of a Python list of error strings inside an f-string. -/
def renderErrors (errs : List String) : String :=
  "[" ++ String.intercalate ", " errs ++ "]"

/-- The multi-line success log message built by `_update_via_graphql`. -/
def graphqlSuccessLog (ts : String) (p : MutationPayload) : String :=
  let base := ts ++ " " ++ p.successMessage ++ "\n"
  let withProducts :=
    if p.updatedProducts.isEmpty then base
    else
      base ++ ts ++ " Updated products:\n" ++
        String.join (p.updatedProducts.map (fun q =>
          ts ++ "   - " ++ q.name ++ " (ID: " ++ toString q.id ++
            ") - New stock: " ++ toString q.stock ++ "\n"))
  withProducts ++ "\n"

/-- Embedding of `_update_via_graphql` from `crm/cron.py`: returns the
boolean the function returns together with the messages it passed to
`_write_log`, in order. Each branch of the source performs exactly one
`_write_log` call. -/
def updateViaGraphql (ts : String) (resp : RemoteResponse) :
    Bool × List String :=
  match resp with
  | .requestException msg =>
    (false, [ts ++ " Request failed: " ++ msg ++ "\n"])
  | .otherException msg =>
    (false, [ts ++ " GraphQL approach failed: " ++ msg ++ "\n"])
  | .http status text body =>
    if status = 200 then
      match body with
      | .topErrors rendered =>
        (false, [ts ++ " GraphQL errors: " ++ rendered ++ "\n"])
      | .payload p =>
        if p.errors.isEmpty then
          (true, [graphqlSuccessLog ts p])
        else
          (false, [ts ++ " Mutation errors: " ++ renderErrors p.errors ++ "\n"])
    else
      (false, [ts ++ " HTTP error " ++ toString status ++ ": " ++ text ++ "\n"])

/-- The remote-failure conditions of the spec, read off the source branches:
a raised request exception, any other exception, a non-2xx status, top-level
GraphQL errors, or a non-empty error list inside the payload. -/
def remoteFailure : RemoteResponse → Bool
  | .requestException _ => true
  | .otherException _ => true
  | .http _ _ (.topErrors _) => true
  | .http status _ (.payload p) => status ≠ 200 || !p.errors.isEmpty

/-- One product line of the database-fallback log message. -/
def dbProductLine (ts : String) (pr : Product × Product) : String :=
  ts ++ "   - " ++ pr.1.name ++ " (ID: " ++ toString pr.1.id ++ ") - Stock: " ++
    toString pr.1.stock ++ " -> " ++ toString pr.2.stock ++ "\n"

/-- Embedding of `_update_via_database` from `crm/cron.py`: query the
products with `stock < 10`; if none, log the no-candidates message; else run
the restocking loop and log the summary with one line per updated product.
An exception anywhere in the `try` block is caught and logged as a single
`[Database Fallback] Failed:` entry. Returns the resulting store and the
messages passed to `_write_log`, in order. -/
def updateViaDatabase (f : Nat → Option String) (ts : String) (s : Store) :
    Store × List String :=
  let low := lowStockProducts s
  if low.isEmpty then
    (s, [ts ++ " [Database Fallback] No low-stock products found.\n\n"])
  else
    let r := restockLoop f low s
    match r.err with
    | some e =>
      (r.store, [ts ++ " [Database Fallback] Failed: " ++ e ++ "\n"])
    | none =>
      let base := ts ++ " [Database Fallback] Successfully updated " ++
        toString r.processed.length ++ " low-stock products.\n"
      let msg :=
        if r.processed.isEmpty then base ++ "\n"
        else
          base ++ ts ++ " [Database Fallback] Updated products:\n" ++
            String.join (r.processed.map (dbProductLine ts)) ++ "\n"
      (r.store, [msg])

/-- Observable trace of one `update_low_stock` run: how many times the
remote call was issued, how many times the database fallback ran, the final
store, the log messages in order, and the Python return value of the
function (the source body has no `return` statement, so it is always
`none`, the embedding of Python `None`). -/
structure RunTrace where
  remoteAttempts : Nat
  fallbackRuns : Nat
  store : Store
  logs : List String
  retval : Option Bool
deriving Repr, DecidableEq

/-- Embedding of `update_low_stock` from `crm/cron.py`: try the GraphQL
path once; if it reports failure, run the database fallback once. -/
def update_low_stock (ts : String) (resp : RemoteResponse)
    (f : Nat → Option String) (s : Store) : RunTrace :=
  let g := updateViaGraphql ts resp
  if g.1 then
    ⟨1, 0, s, g.2, none⟩
  else
    let d := updateViaDatabase f ts s
    ⟨1, 1, d.1, g.2 ++ d.2, none⟩

/-- State of the log sink environment: writability of the primary and the
fallback location, their accumulated text contents, whether the fallback
parent directory exists, and the lines printed to the console. -/
structure SinkState where
  primaryWritable : Bool
  primary : String
  fallbackDirExists : Bool
  fallbackWritable : Bool
  fallback : String
  console : List String
deriving Repr, DecidableEq

/-- The posix fallback path of `_write_log` in `crm/cron.py`. -/
def fallback_path : String := "/var/log/low_stock_updates_log.txt"

/-- Embedding of `_write_log` from `crm/cron.py`: append to the primary log;
on failure create the fallback directory and append the message followed by
the provenance note to the fallback log; on failure there too, print the
message to the console. The function is total: no branch raises. -/
def write_log (message ts : String) (st : SinkState) : SinkState :=
  if st.primaryWritable then
    { st with primary := st.primary ++ message }
  else if st.fallbackWritable then
    { st with
        fallbackDirExists := true,
        fallback := st.fallback ++ message ++
          (ts ++ " Note: Using fallback log location " ++ fallback_path ++ "\n") }
  else
    { st with console := st.console ++ ["Failed to write log: " ++ message] }

/-- The posix fallback path of `_log_message` in `crm/tasks.py`. -/
def report_fallback_path : String := "/var/log/crm_report_log.txt"

/-- Embedding of `_log_message` from `crm/tasks.py`: append the message and
a newline to the primary report log; on failure create the fallback
directory and append the message plus the provenance note to the fallback
log; on failure there too, print the message to the console. Total. -/
def log_message (message : String) (st : SinkState) : SinkState :=
  if st.primaryWritable then
    { st with primary := st.primary ++ message ++ "\n" }
  else if st.fallbackWritable then
    { st with
        fallbackDirExists := true,
        fallback := st.fallback ++ message ++ "\n" ++
          ("Note: Using fallback log location " ++ report_fallback_path ++ "\n") }
  else
    { st with console := st.console ++ ["Failed to write log: " ++ message] }

/-!  Helper lemmas shared by the claim theorems. -/

/-- Every failure branch of `_update_via_graphql` returns `False`. -/
theorem updateViaGraphql_fst_of_failure (ts : String) (resp : RemoteResponse)
    (h : remoteFailure resp = true) : (updateViaGraphql ts resp).1 = false := by
  cases resp with
  | requestException msg => rfl
  | otherException msg => rfl
  | http status text body =>
    cases body with
    | topErrors r =>
      simp only [updateViaGraphql]
      split <;> rfl
    | payload p =>
      simp only [remoteFailure, Bool.or_eq_true, decide_eq_true_eq,
        Bool.not_eq_true', List.isEmpty_eq_false] at h
      simp only [updateViaGraphql]
      by_cases hs : status = 200
      · subst hs
        rcases h with h | h
        · exact absurd rfl h
        · simp [h]
      · simp [hs]

/-- Every branch of `_update_via_graphql` performs exactly one log write. -/
theorem updateViaGraphql_log_length (ts : String) (resp : RemoteResponse) :
    (updateViaGraphql ts resp).2.length = 1 := by
  cases resp with
  | requestException msg => rfl
  | otherException msg => rfl
  | http status text body =>
    by_cases hs : status = 200
    · subst hs
      cases body with
      | topErrors r => rfl
      | payload p =>
        by_cases he : p.errors.isEmpty = true
        · simp [updateViaGraphql, he]
        · simp [updateViaGraphql, he]
    · simp [updateViaGraphql, hs]

/-- Every branch of `_update_via_database` performs exactly one log write. -/
theorem updateViaDatabase_log_length (f : Nat → Option String) (ts : String)
    (s : Store) : (updateViaDatabase f ts s).2.length = 1 := by
  by_cases hl : (lowStockProducts s).isEmpty = true
  · simp [updateViaDatabase, hl]
  · cases he : (restockLoop f (lowStockProducts s) s).err with
    | some e => simp [updateViaDatabase, hl, he]
    | none =>
      by_cases hp : (restockLoop f (lowStockProducts s) s).processed.isEmpty = true
      · simp [updateViaDatabase, hl, he, hp]
      · simp [updateViaDatabase, hl, he, hp]

/-- Each pair recorded by the restocking loop is a candidate from the input
list together with its restocked version. -/
theorem restockLoop_processed_mem (f : Nat → Option String)
    (l : List Product) (s : Store) (pr : Product × Product)
    (h : pr ∈ (restockLoop f l s).processed) :
    pr.1 ∈ l ∧ pr.2 = applyRestock pr.1 := by
  induction l generalizing s with
  | nil => simp [restockLoop] at h
  | cons p rest ih =>
    cases hf : f p.id with
    | some e => simp [restockLoop, hf] at h
    | none =>
      simp only [restockLoop, hf, List.mem_cons] at h
      rcases h with h | h
      · subst h
        exact ⟨List.mem_cons_self p rest, rfl⟩
      · obtain ⟨h1, h2⟩ := ih (saveProduct s (applyRestock p)) h
        exact ⟨List.mem_cons_of_mem p h1, h2⟩

/-- If the restocking loop aborts with exception `e`, the candidate list
splits into a fully processed prefix whose saves all succeeded, a failing
candidate raising `e`, and an untouched remainder; the store holds exactly
the saves of the prefix and the recorded pairs are exactly the prefix. -/
theorem restockLoop_err_split (f : Nat → Option String) (l : List Product)
    (s : Store) (e : String) (h : (restockLoop f l s).err = some e) :
    ∃ pre p post, l = pre ++ p :: post ∧ (∀ q ∈ pre, f q.id = none) ∧
      f p.id = some e ∧
      (restockLoop f l s).store = applyRestockAll pre s ∧
      (restockLoop f l s).processed = pre.map (fun q => (q, applyRestock q)) := by
  induction l generalizing s with
  | nil => simp [restockLoop] at h
  | cons p rest ih =>
    cases hf : f p.id with
    | some e' =>
      have hstep : restockLoop f (p :: rest) s = ⟨s, [], some e'⟩ := by
        simp [restockLoop, hf]
      rw [hstep] at h ⊢
      injection h with h
      subst h
      exact ⟨[], p, rest, rfl, by simp, hf, rfl, rfl⟩
    | none =>
      have hstep : restockLoop f (p :: rest) s =
          ⟨(restockLoop f rest (saveProduct s (applyRestock p))).store,
           (p, applyRestock p) ::
             (restockLoop f rest (saveProduct s (applyRestock p))).processed,
           (restockLoop f rest (saveProduct s (applyRestock p))).err⟩ := by
        simp [restockLoop, hf]
      rw [hstep] at h ⊢
      simp only at h
      obtain ⟨pre, q, post, hl, hpre, hq, hst, hproc⟩ := ih _ h
      refine ⟨p :: pre, q, post, by simp [hl], ?_, hq, ?_, ?_⟩
      · intro r hr
        rcases List.mem_cons.mp hr with hr | hr
        · subst hr; exact hf
        · exact hpre r hr
      · simpa [applyRestockAll] using hst
      · simpa using hproc

/-- `_write_log` never changes whether the primary location is writable. -/
theorem write_log_primaryWritable (message ts : String) (st : SinkState) :
    (write_log message ts st).primaryWritable = st.primaryWritable := by
  simp only [write_log]
  split
  · rfl
  · split <;> rfl

/-- The single log write of `_update_via_graphql`, as a list equation. -/
theorem updateViaGraphql_logs_singleton (ts : String) (resp : RemoteResponse) :
    ∃ m, (updateViaGraphql ts resp).2 = [m] := by
  cases hgl : (updateViaGraphql ts resp).2 with
  | nil =>
    have h := updateViaGraphql_log_length ts resp
    rw [hgl] at h
    simp at h
  | cons a l =>
    have h := updateViaGraphql_log_length ts resp
    rw [hgl] at h
    simp at h
    exact ⟨a, by rw [h]⟩

/-- If the restocking loop over the low-stock queryset raised, the queryset
was not empty. -/
theorem lowStock_ne_nil_of_loop_err (f : Nat → Option String) (s : Store)
    (e : String) (h : (restockLoop f (lowStockProducts s) s).err = some e) :
    (lowStockProducts s).isEmpty = false := by
  cases hl : lowStockProducts s with
  | nil =>
    rw [hl] at h
    simp [restockLoop] at h
  | cons a l => rfl

/-- When the restocking loop raises, `_update_via_database` catches the
exception and logs the single failure entry, returning the store the loop
left behind. -/
theorem updateViaDatabase_of_loop_err (f : Nat → Option String) (ts : String)
    (s : Store) (e : String)
    (h : (restockLoop f (lowStockProducts s) s).err = some e) :
    updateViaDatabase f ts s =
      ((restockLoop f (lowStockProducts s) s).store,
       [ts ++ " [Database Fallback] Failed: " ++ e ++ "\n"]) := by
  have hne := lowStock_ne_nil_of_loop_err f s e h
  simp [updateViaDatabase, hne, h]

/-- C1: for every remote-path failure of the replenishment run — a raised
transport exception, any other exception, a non-2xx status, top-level
protocol errors in the response, or a non-empty error list inside the
response — `update_low_stock` issues the remote call exactly once (no
retry), logs exactly one remote-failure entry, and executes the database
fallback exactly once, which itself writes exactly one further log entry,
so the run is never a silent no-op. -/
theorem remote_failure_single_fallback (ts : String) (resp : RemoteResponse)
    (f : Nat → Option String) (s : Store) (h : remoteFailure resp = true) :
    (update_low_stock ts resp f s).remoteAttempts = 1 ∧
    (update_low_stock ts resp f s).fallbackRuns = 1 ∧
    (update_low_stock ts resp f s).logs =
      (updateViaGraphql ts resp).2 ++ (updateViaDatabase f ts s).2 ∧
    (updateViaGraphql ts resp).2.length = 1 ∧
    (updateViaDatabase f ts s).2.length = 1 := by
  have hf := updateViaGraphql_fst_of_failure ts resp h
  refine ⟨?_, ?_, ?_, updateViaGraphql_log_length ts resp,
    updateViaDatabase_log_length f ts s⟩
  all_goals simp [update_low_stock, hf]

/-- C1 witness: a concrete transport failure triggers the fallback once. -/
theorem remote_failure_single_fallback_witness :
    (update_low_stock "TS" (RemoteResponse.requestException "Connection refused")
      (fun _ => none) [⟨1, "Widget", 1, 5⟩]).fallbackRuns = 1 :=
  (remote_failure_single_fallback "TS"
    (RemoteResponse.requestException "Connection refused")
    (fun _ => none) [⟨1, "Widget", 1, 5⟩] rfl).2.1

/-- C5: restocking is additive: the restocked stock equals the old stock
plus the configured amount (the source literal 10), both for the policy
function and for every pair the restocking loop processes; it is not a
top-up to `max(old_stock, threshold)`, from which it differs at stock 5,
threshold 10. -/
theorem restock_additive :
    (∀ p : Product, (applyRestock p).stock = p.stock + restock_amount) ∧
    restock_amount = 10 ∧
    (∀ (f : Nat → Option String) (l : List Product) (s : Store)
        (pr : Product × Product), pr ∈ (restockLoop f l s).processed →
        pr.2.stock = pr.1.stock + restock_amount) ∧
    (∃ (p : Product) (T : Nat), (applyRestock p).stock ≠ max p.stock T) := by
  refine ⟨fun p => rfl, rfl, ?_, ⟨⟨1, "Widget", 1, 5⟩, 10, by decide⟩⟩
  intro f l s pr h
  rw [(restockLoop_processed_mem f l s pr h).2]
  rfl

/-- C5 witness: a concrete processed pair has stock 5 restocked to 15. -/
theorem restock_additive_witness :
    ((⟨1, "Widget", 1, 5⟩, ⟨1, "Widget", 1, 15⟩) : Product × Product).2.stock =
      ((⟨1, "Widget", 1, 5⟩, ⟨1, "Widget", 1, 15⟩) :
        Product × Product).1.stock + restock_amount :=
  restock_additive.2.2.1 (fun _ => none) [⟨1, "Widget", 1, 5⟩] []
    (⟨1, "Widget", 1, 5⟩, ⟨1, "Widget", 1, 15⟩) (by decide)

/-- C6: for every threshold and product list, selection returns exactly the
products whose stock is strictly below the threshold, keeps the store
iteration order (the result is a sublist of the store), and never selects a
product whose stock is at or above the threshold. -/
theorem selectCandidates_exact (T : Nat) (ps : List Product) :
    (∀ p : Product, p ∈ selectCandidates T ps ↔ p ∈ ps ∧ p.stock < T) ∧
    (selectCandidates T ps).Sublist ps ∧
    (∀ p : Product, T ≤ p.stock → p ∉ selectCandidates T ps) := by
  have hmem : ∀ p : Product, p ∈ selectCandidates T ps ↔ p ∈ ps ∧ p.stock < T := by
    intro p
    simp [selectCandidates, List.mem_filter]
  refine ⟨hmem, List.filter_sublist ps, fun p hT hin => ?_⟩
  exact absurd ((hmem p).mp hin).2 (Nat.not_lt.mpr hT)

/-- C6 witness: at threshold 10, stock 5 is selected and stock 12 is not. -/
theorem selectCandidates_exact_witness :
    (⟨1, "Widget", 1, 5⟩ : Product) ∈
      selectCandidates 10 [⟨1, "Widget", 1, 5⟩, ⟨2, "Gadget", 1, 12⟩] ∧
    (⟨2, "Gadget", 1, 12⟩ : Product) ∉
      selectCandidates 10 [⟨1, "Widget", 1, 5⟩, ⟨2, "Gadget", 1, 12⟩] :=
  ⟨((selectCandidates_exact 10 [⟨1, "Widget", 1, 5⟩, ⟨2, "Gadget", 1, 12⟩]).1
      ⟨1, "Widget", 1, 5⟩).mpr ⟨by decide, by decide⟩,
   (selectCandidates_exact 10 [⟨1, "Widget", 1, 5⟩, ⟨2, "Gadget", 1, 12⟩]).2.2
      ⟨2, "Gadget", 1, 12⟩ (by decide)⟩

/-- C7: when no product is below the threshold, the database fallback
leaves the store unchanged and writes exactly one log entry carrying the
no-candidates summary, and the mutation returns the empty-candidate success
result without touching the store. -/
theorem no_low_stock_noop (f : Nat → Option String) (ts : String) (s : Store)
    (h : lowStockProducts s = []) :
    updateViaDatabase f ts s =
      (s, [ts ++ " [Database Fallback] No low-stock products found.\n\n"]) ∧
    UpdateLowStockProducts.mutate f s =
      (s, ⟨[], some "No low-stock products found.", none⟩) := by
  constructor
  · simp [updateViaDatabase, h]
  · simp [UpdateLowStockProducts.mutate, h]

/-- C7 witness: a store whose only product has stock 50. -/
theorem no_low_stock_noop_witness :
    updateViaDatabase (fun _ => none) "TS" [⟨1, "Widget", 1, 50⟩] =
      ([⟨1, "Widget", 1, 50⟩],
       ["TS [Database Fallback] No low-stock products found.\n\n"]) :=
  (no_low_stock_noop (fun _ => none) "TS" [⟨1, "Widget", 1, 50⟩] rfl).1

/-- C9: after restocking, a candidate whose old stock plus the restock
amount reaches the threshold is excluded from any re-run of selection with
the same threshold. -/
theorem restock_excludes_from_reselect (T : Nat) (p : Product)
    (ps : List Product) (h : T ≤ p.stock + restock_amount) :
    applyRestock p ∉ selectCandidates T ps := by
  intro hin
  have hlt : (applyRestock p).stock < T := by
    simpa using (List.mem_filter.mp hin).2
  have : p.stock + restock_amount < T := hlt
  omega

/-- C9 witness: the restocked stock-5 product is not reselected at
threshold 10. -/
theorem restock_excludes_from_reselect_witness :
    applyRestock ⟨1, "Widget", 1, 5⟩ ∉
      selectCandidates 10 [applyRestock ⟨1, "Widget", 1, 5⟩] :=
  restock_excludes_from_reselect 10 ⟨1, "Widget", 1, 5⟩
    [applyRestock ⟨1, "Widget", 1, 5⟩] (by decide)

/-- C8: the concrete end-to-end scenario of the spec: three products with
stocks 5, 12 and 3, threshold 10, restock amount 10, remote endpoint down.
The fallback fires exactly once, the low products end at stocks 15 and 13,
the stock-12 product is untouched, and the single fallback log entry is the
summary "Successfully updated 2 low-stock products." plus the two update
lines. -/
theorem scenario_remote_down :
    update_low_stock "TS" (RemoteResponse.requestException "Connection refused")
      (fun _ => none)
      [⟨1, "Alpha", 1, 5⟩, ⟨2, "Beta", 1, 12⟩, ⟨3, "Gamma", 1, 3⟩] =
      ⟨1, 1,
       [⟨1, "Alpha", 1, 15⟩, ⟨2, "Beta", 1, 12⟩, ⟨3, "Gamma", 1, 13⟩],
       ["TS Request failed: Connection refused\n",
        "TS [Database Fallback] Successfully updated 2 low-stock products.\n" ++
          "TS [Database Fallback] Updated products:\n" ++
          "TS   - Alpha (ID: 1) - Stock: 5 -> 15\n" ++
          "TS   - Gamma (ID: 3) - Stock: 3 -> 13\n" ++ "\n"],
       none⟩ := by
  decide

/-- C10: the mutation never raises to its caller: a save exception raised
mid-loop is caught and converted into a result whose errors list holds the
message, with an empty `updated_products` list and a null `success_message`,
while the store the mutation returns still contains the saves applied to the
processed prefix before the exception — the error result under-reports the
updates that persisted. -/
theorem mutate_swallows_midloop_error (f : Nat → Option String) (s : Store)
    (e : String)
    (h : (restockLoop f (lowStockProducts s) s).err = some e) :
    (UpdateLowStockProducts.mutate f s).2 = ⟨[], none, some [e]⟩ ∧
    (UpdateLowStockProducts.mutate f s).1 =
      (restockLoop f (lowStockProducts s) s).store ∧
    ∃ pre p post, lowStockProducts s = pre ++ p :: post ∧
      (∀ q ∈ pre, f q.id = none) ∧ f p.id = some e ∧
      (UpdateLowStockProducts.mutate f s).1 = applyRestockAll pre s := by
  have hne := lowStock_ne_nil_of_loop_err f s e h
  refine ⟨?_, ?_, ?_⟩
  · simp [UpdateLowStockProducts.mutate, hne, h]
  · simp [UpdateLowStockProducts.mutate, hne, h]
  · obtain ⟨pre, p, post, hsplit, hpre, hp, hst, _⟩ :=
      restockLoop_err_split f (lowStockProducts s) s e h
    exact ⟨pre, p, post, hsplit, hpre, hp,
      by simp [UpdateLowStockProducts.mutate, hne, h, hst]⟩

/-- C10 witness: with a save failure on the second of two candidates, the
result reports no updates and the error, while the store keeps the first
update. -/
theorem mutate_swallows_midloop_error_witness :
    (UpdateLowStockProducts.mutate
        (fun i => if i = 2 then some "disk full" else none)
        [⟨1, "Widget", 1, 5⟩, ⟨2, "Gadget", 1, 3⟩]).2 =
      ⟨[], none, some ["disk full"]⟩ ∧
    (UpdateLowStockProducts.mutate
        (fun i => if i = 2 then some "disk full" else none)
        [⟨1, "Widget", 1, 5⟩, ⟨2, "Gadget", 1, 3⟩]).1 =
      [⟨1, "Widget", 1, 15⟩, ⟨2, "Gadget", 1, 3⟩] :=
  ⟨(mutate_swallows_midloop_error
      (fun i => if i = 2 then some "disk full" else none)
      [⟨1, "Widget", 1, 5⟩, ⟨2, "Gadget", 1, 3⟩] "disk full" (by decide)).1,
   by decide⟩

/-- C2 counterexample: two low-stock candidates and a save failure on the
second. The update to the first candidate persists in the store, yet the
single log entry of the run is the bare failure message: it mentions
neither the updated product nor its new stock and does not report partial
success, contradicting the claim that the partial result is logged together
with the error. -/
theorem db_midloop_log_counterexample :
    updateViaDatabase (fun i => if i = 2 then some "disk full" else none) "TS"
      [⟨1, "Widget", 1, 5⟩, ⟨2, "Gadget", 1, 3⟩] =
      ([⟨1, "Widget", 1, 15⟩, ⟨2, "Gadget", 1, 3⟩],
       ["TS [Database Fallback] Failed: disk full\n"]) ∧
    ¬ ("Widget".toList <:+:
        ("TS [Database Fallback] Failed: disk full\n").toList) ∧
    ¬ ("15".toList <:+:
        ("TS [Database Fallback] Failed: disk full\n").toList) ∧
    ¬ ("Successfully".toList <:+:
        ("TS [Database Fallback] Failed: disk full\n").toList) := by
  refine ⟨by decide, by decide, by decide, by decide⟩

/-- C2 amended: if a store error occurs part-way through the fallback loop,
the saves already applied to the processed prefix persist and only the
remaining candidates are abandoned, but the single log entry of the run is
the bare `[Database Fallback] Failed:` message — the partial result is not
logged and the run is reported as failed rather than partially successful. -/
theorem db_midloop_failure_outcome (f : Nat → Option String) (ts : String)
    (s : Store) (e : String)
    (h : (restockLoop f (lowStockProducts s) s).err = some e) :
    updateViaDatabase f ts s =
      ((restockLoop f (lowStockProducts s) s).store,
       [ts ++ " [Database Fallback] Failed: " ++ e ++ "\n"]) ∧
    ∃ pre p post, lowStockProducts s = pre ++ p :: post ∧
      (∀ q ∈ pre, f q.id = none) ∧ f p.id = some e ∧
      (updateViaDatabase f ts s).1 = applyRestockAll pre s := by
  refine ⟨updateViaDatabase_of_loop_err f ts s e h, ?_⟩
  obtain ⟨pre, p, post, hsplit, hpre, hp, hst, _⟩ :=
    restockLoop_err_split f (lowStockProducts s) s e h
  refine ⟨pre, p, post, hsplit, hpre, hp, ?_⟩
  rw [updateViaDatabase_of_loop_err f ts s e h]
  exact hst

/-- C2 amended witness: the concrete two-candidate run with a save failure
on the second candidate. -/
theorem db_midloop_failure_outcome_witness :
    updateViaDatabase (fun i => if i = 2 then some "disk full" else none)
      "TS" [⟨1, "Widget", 1, 5⟩, ⟨2, "Gadget", 1, 3⟩] =
      ([⟨1, "Widget", 1, 15⟩, ⟨2, "Gadget", 1, 3⟩],
       ["TS [Database Fallback] Failed: disk full\n"]) :=
  ((db_midloop_failure_outcome
      (fun i => if i = 2 then some "disk full" else none) "TS"
      [⟨1, "Widget", 1, 5⟩, ⟨2, "Gadget", 1, 3⟩] "disk full"
      (by decide)).1).trans (by decide)

/-- C3 counterexample: a run in which both the remote call (transport
error) and the database fallback (save failure on the only candidate) fail
returns exactly the same value as a fully successful remote-path run —
the body of `update_low_stock` has no return statement — so the caller
receives no failure signal distinguishable from the success outcomes. -/
theorem run_failure_signal_counterexample :
    (update_low_stock "TS" (RemoteResponse.requestException "Connection refused")
        (fun _ => some "disk full") [⟨1, "Widget", 1, 5⟩]).logs =
      ["TS Request failed: Connection refused\n",
       "TS [Database Fallback] Failed: disk full\n"] ∧
    (update_low_stock "TS" (RemoteResponse.requestException "Connection refused")
        (fun _ => some "disk full") [⟨1, "Widget", 1, 5⟩]).retval =
      (update_low_stock "TS"
        (RemoteResponse.http 200 ""
          (ResponseBody.payload ⟨[], "No low-stock products found.", []⟩))
        (fun _ => none) [⟨1, "Widget", 1, 50⟩]).retval ∧
    (update_low_stock "TS"
        (RemoteResponse.http 200 ""
          (ResponseBody.payload ⟨[], "No low-stock products found.", []⟩))
        (fun _ => none) [⟨1, "Widget", 1, 50⟩]).fallbackRuns = 0 := by
  refine ⟨by decide, rfl, rfl⟩

/-- C3 amended: when both the remote path and the fallback loop fail, the
run writes the remote failure entry followed by the fallback failure entry
— with a writable primary sink the two causes end up concatenated in the
primary log content — and the run completes without crashing; but
`update_low_stock` returns `none` exactly as on success, so the caller
receives no distinguishable failure signal. -/
theorem both_paths_fail_logged (ts : String) (resp : RemoteResponse)
    (f : Nat → Option String) (s : Store) (e : String) (st : SinkState)
    (hr : remoteFailure resp = true)
    (hl : (restockLoop f (lowStockProducts s) s).err = some e)
    (hw : st.primaryWritable = true) :
    ∃ m, (updateViaGraphql ts resp).2 = [m] ∧
      (update_low_stock ts resp f s).logs =
        [m, ts ++ " [Database Fallback] Failed: " ++ e ++ "\n"] ∧
      ((update_low_stock ts resp f s).logs.foldl
          (fun a msg => write_log msg ts a) st).primary =
        st.primary ++ m ++ (ts ++ " [Database Fallback] Failed: " ++ e ++ "\n") ∧
      (update_low_stock ts resp f s).retval = none := by
  obtain ⟨m, hm⟩ := updateViaGraphql_logs_singleton ts resp
  have hf := updateViaGraphql_fst_of_failure ts resp hr
  have hd := updateViaDatabase_of_loop_err f ts s e hl
  have hlogs : (update_low_stock ts resp f s).logs =
      [m, ts ++ " [Database Fallback] Failed: " ++ e ++ "\n"] := by
    simp [update_low_stock, hf, hm, hd]
  refine ⟨m, hm, hlogs, ?_, ?_⟩
  · rw [hlogs]
    simp [write_log, hw]
  · simp [update_low_stock, hf]

/-- C3 amended witness: the concrete both-failed run, folded into a sink
with a writable primary location. -/
theorem both_paths_fail_logged_witness :
    ∃ m, (updateViaGraphql "TS"
        (RemoteResponse.requestException "Connection refused")).2 = [m] ∧
      (update_low_stock "TS"
          (RemoteResponse.requestException "Connection refused")
          (fun _ => some "disk full") [⟨1, "Widget", 1, 5⟩]).logs =
        [m, "TS" ++ " [Database Fallback] Failed: " ++ "disk full" ++ "\n"] ∧
      ((update_low_stock "TS"
            (RemoteResponse.requestException "Connection refused")
            (fun _ => some "disk full") [⟨1, "Widget", 1, 5⟩]).logs.foldl
          (fun a msg => write_log msg "TS" a) ⟨true, "", false, false, "", []⟩).primary =
        "" ++ m ++ ("TS" ++ " [Database Fallback] Failed: " ++ "disk full" ++ "\n") ∧
      (update_low_stock "TS"
          (RemoteResponse.requestException "Connection refused")
          (fun _ => some "disk full") [⟨1, "Widget", 1, 5⟩]).retval = none :=
  both_paths_fail_logged "TS" (RemoteResponse.requestException "Connection refused")
    (fun _ => some "disk full") [⟨1, "Widget", 1, 5⟩] "disk full"
    ⟨true, "", false, false, "", []⟩ rfl (by decide) rfl

/-- C4: the log sink append operations are total functions of the sink
state, so no branch raises; when the primary location is unwritable and the
fallback location writable, the message is appended verbatim to the
fallback location followed by the trailing provenance note, with the
fallback parent directory created; when both locations are unwritable, the
message is emitted on the console and the rest of the state is unchanged.
Both `_write_log` of the low-stock job and `_log_message` of the report job
satisfy this. -/
theorem log_sink_failover (message ts : String) (st : SinkState) :
    (st.primaryWritable = false → st.fallbackWritable = true →
      write_log message ts st =
        { st with
            fallbackDirExists := true,
            fallback := st.fallback ++ message ++
              (ts ++ " Note: Using fallback log location " ++
                fallback_path ++ "\n") } ∧
      log_message message st =
        { st with
            fallbackDirExists := true,
            fallback := st.fallback ++ message ++ "\n" ++
              ("Note: Using fallback log location " ++
                report_fallback_path ++ "\n") }) ∧
    (st.primaryWritable = false → st.fallbackWritable = false →
      write_log message ts st =
        { st with console := st.console ++ ["Failed to write log: " ++ message] } ∧
      log_message message st =
        { st with console := st.console ++ ["Failed to write log: " ++ message] }) := by
  constructor
  · intro h1 h2
    constructor
    · simp [write_log, h1, h2]
    · simp [log_message, h1, h2]
  · intro h1 h2
    constructor
    · simp [write_log, h1, h2]
    · simp [log_message, h1, h2]

/-- C4 witness: a concrete message through the secondary path and through
the console path. -/
theorem log_sink_failover_witness :
    write_log "hello" "TS" ⟨false, "", false, true, "", []⟩ =
      ⟨false, "", true, true,
       "" ++ "hello" ++
         ("TS" ++ " Note: Using fallback log location " ++ fallback_path ++ "\n"),
       []⟩ ∧
    write_log "hello" "TS" ⟨false, "", false, false, "", []⟩ =
      ⟨false, "", false, false, "", ["Failed to write log: " ++ "hello"]⟩ :=
  ⟨((log_sink_failover "hello" "TS" ⟨false, "", false, true, "", []⟩).1 rfl rfl).1,
   ((log_sink_failover "hello" "TS" ⟨false, "", false, false, "", []⟩).2 rfl rfl).1⟩

end Crm
